import Mathlib

/-!
# DamSafe stability engine — shallow embedding

A shallow embedding of the stability-calculation engine of the DamSafe
application (`src/utils/calculations.ts`), together with proofs of the
behavioural properties claimed by the specification.

Modelling conventions:
* JavaScript numbers are modelled by `ℚ` (all the engine's arithmetic is
  `+ - * /` on decimal inputs, exact over `ℚ`); where the source divides
  by zero the `ℚ` convention `x / 0 = 0` replaces the IEEE `Infinity`/`NaN`
  and is noted at the definition.
* Optional fields (`crestWidth?`, `frictionCoefficient?`, …) are `Option ℚ`.
* JavaScript truthiness tests on optional numbers (`if (targetSafetyFactor)`,
  `if (!crestWidth)`) treat `undefined` and `0` alike; this is embedded
  explicitly at each use site.
* `throw new Error(msg)` is modelled by `Except String`; every function on a
  throwing call path lives in `Except String`.
* The human-readable derivation-trace list (`calculationSteps`: title /
  formula / explanation strings built for display) is presentation-only and
  carries no numeric state; it is omitted from the embedding.  All numeric
  fields of the results record are embedded.
-/

deriving instance DecidableEq for Except

namespace DamSafe

/-- `StructureType` from `types.ts`: `"rectangle" | "triangle" | "trapezoid"`. -/
inductive StructureType where
  | rectangle
  | triangle
  | trapezoid
deriving DecidableEq, Repr

/-- `WaterDensityUnit` from `types.ts`: `"kN/m³" | "kg/m³"`. -/
inductive WaterDensityUnit where
  | kNPerM3
  | kgPerM3
deriving DecidableEq, Repr

/-- `MassUnit` from `types.ts`: `"kg" | "lb"`. -/
inductive MassUnit where
  | kg
  | lb
deriving DecidableEq, Repr

/-- The `unitSystem` field: `'metric' | 'imperial'`. -/
inductive UnitSystem where
  | metric
  | imperial
deriving DecidableEq, Repr

/-- The `solveFor` field: `'none' | 'waterLevel' | 'baseWidth' | 'frictionCoefficient'`.
The TypeScript field is optional with default `'none'` applied on
destructuring in `calculateDamStability`; an absent field is embedded as
`SolveFor.none`. -/
inductive SolveFor where
  | none
  | waterLevel
  | baseWidth
  | frictionCoefficient
deriving DecidableEq, Repr

/-- `DamInputs` from `types.ts`.  Optional numeric fields are `Option ℚ`. -/
structure DamInputs where
  structureType : StructureType
  baseWidth : ℚ
  height : ℚ
  waterLevel : ℚ
  crestWidth : Option ℚ
  concreteDensity : ℚ
  waterDensity : ℚ
  waterDensityUnit : WaterDensityUnit
  frictionCoefficient : Option ℚ
  heelUplift : Option ℚ
  toeUplift : Option ℚ
  unitSystem : UnitSystem
  solveFor : SolveFor
  targetSafetyFactor : Option ℚ
  needsFrictionCalculation : Bool
deriving DecidableEq, Repr

/-- JavaScript truthiness of an optional number: `undefined` and `0` are
falsy (`NaN`, the only other falsy number, has no `ℚ` counterpart). -/
def truthyOpt : Option ℚ → Bool
  | Option.none => false
  | Option.some t => if t = 0 then false else true

/-- `Math.abs` on rationals. -/
def jsAbs (x : ℚ) : ℚ := if x < 0 then -x else x

/-- `convertWaterDensity` (calculations.ts lines 4–20): converts between
kg/m³ and kN/m³ via g = 9.81; identical units return the input unchanged. -/
def convertWaterDensity (density : ℚ) (fromUnit toUnit : WaterDensityUnit) : ℚ :=
  match fromUnit, toUnit with
  | WaterDensityUnit.kNPerM3, WaterDensityUnit.kNPerM3 => density
  | WaterDensityUnit.kgPerM3, WaterDensityUnit.kgPerM3 => density
  | WaterDensityUnit.kgPerM3, WaterDensityUnit.kNPerM3 => density * (981/100) / 1000
  | WaterDensityUnit.kNPerM3, WaterDensityUnit.kgPerM3 => density * 1000 / (981/100)

/-- `forceToMass` (lines 23–31): metric converts kN to kg dividing by
g = 9.81; imperial leaves the number unchanged with unit `lb`. -/
def forceToMass (force : ℚ) (unitSystem : UnitSystem) : ℚ × MassUnit :=
  match unitSystem with
  | UnitSystem.metric => (force * 1000 / (981/100), MassUnit.kg)
  | UnitSystem.imperial => (force, MassUnit.lb)

/-- `calculateVolume` (lines 39–54).  The trapezoid case tests
`if (!crestWidth)`, so both an absent and a zero crest width throw
`'Crest width required for trapezoid'`. -/
def calculateVolume (inputs : DamInputs) : Except String ℚ :=
  match inputs.structureType with
  | StructureType.rectangle => Except.ok (inputs.baseWidth * inputs.height)
  | StructureType.triangle => Except.ok ((inputs.baseWidth * inputs.height) / 2)
  | StructureType.trapezoid =>
      match inputs.crestWidth with
      | Option.none => Except.error "Crest width required for trapezoid"
      | Option.some c =>
          if c = 0 then Except.error "Crest width required for trapezoid"
          else Except.ok (((inputs.baseWidth + c) / 2) * inputs.height)

/-- `calculateCenterOfGravity` (lines 72–89): horizontal centroid offset from
the heel; same `!crestWidth` guard as `calculateVolume`. -/
def calculateCenterOfGravity (inputs : DamInputs) : Except String ℚ :=
  match inputs.structureType with
  | StructureType.rectangle => Except.ok (inputs.baseWidth / 2)
  | StructureType.triangle => Except.ok (inputs.baseWidth / 3)
  | StructureType.trapezoid =>
      match inputs.crestWidth with
      | Option.none => Except.error "Crest width required for trapezoid"
      | Option.some c =>
          if c = 0 then Except.error "Crest width required for trapezoid"
          else Except.ok ((inputs.baseWidth + 2 * c) / (3 * (inputs.baseWidth + c)) * inputs.baseWidth)

/-- `calculateUpliftArea` (lines 123–131): trapezoidal uplift area; exactly 0
when both heel and toe uplift are 0 (the optional fields default to 0). -/
def calculateUpliftArea (inputs : DamInputs) : ℚ :=
  let heelUplift := inputs.heelUplift.getD 0
  let toeUplift := inputs.toeUplift.getD 0
  if heelUplift = 0 ∧ toeUplift = 0 then 0
  else ((heelUplift + toeUplift) / 2) * inputs.baseWidth

/-- `calculateHydrostaticPressure` (lines 134–144): density (normalised to
kN/m³) times `waterLevel² / 2`. -/
def calculateHydrostaticPressure (inputs : DamInputs) : ℚ :=
  let densityInKN :=
    match inputs.waterDensityUnit with
    | WaterDensityUnit.kgPerM3 =>
        convertWaterDensity inputs.waterDensity WaterDensityUnit.kgPerM3 WaterDensityUnit.kNPerM3
    | WaterDensityUnit.kNPerM3 => inputs.waterDensity
  densityInKN * (inputs.waterLevel * inputs.waterLevel) / 2

/-- `calculateSlidingSafetyFactor` (lines 147–156): `undefined` when the
friction computation is not requested or the coefficient is absent, else
`μ · Ry / Rx`.  The source performs the division unguarded; over `ℚ`,
`Rx = 0` yields `0` where IEEE arithmetic would yield `±Infinity`/`NaN` —
the sliding factor is in particular still *present* in that case. -/
def calculateSlidingSafetyFactor (verticalReaction horizontalReaction : ℚ)
    (frictionCoefficient : Option ℚ) (needsFrictionCalculation : Bool) : Option ℚ :=
  match needsFrictionCalculation, frictionCoefficient with
  | false, _ => Option.none
  | true, Option.none => Option.none
  | true, Option.some μ => Option.some (μ * verticalReaction / horizontalReaction)

/-- `calculateOverturningFactor` (lines 159–164): `RM / OM`, substituting 1
for a zero denominator. -/
def calculateOverturningFactor (rightingMoment overturningMoment : ℚ) : ℚ :=
  rightingMoment / (if overturningMoment = 0 then 1 else overturningMoment)

/-- `solveForFrictionCoefficient` (lines 251–257): closed-form
`target · Rx / Ry` (unguarded division; `ℚ` yields 0 for `Ry = 0`). -/
def solveForFrictionCoefficient (verticalReaction horizontalReaction targetSafetyFactor : ℚ) : ℚ :=
  targetSafetyFactor * horizontalReaction / verticalReaction

/-- The record returned by `calculateIntermediateResults` (lines 260–317). -/
structure IntermediateResults where
  volume : ℚ
  selfWeight : ℚ
  centerOfGravity : ℚ
  hydrostaticUplift : ℚ
  hydrostaticPressure : ℚ
  verticalReaction : ℚ
  horizontalReaction : ℚ
  rightingMoment : ℚ
  overturningMoment : ℚ
  locationOfRy : ℚ
  pressureMoment : ℚ
  upliftMoment : ℚ
deriving DecidableEq, Repr

/-- The straight-line body of `calculateIntermediateResults` (lines 260–317)
after its two throwing geometry calls (volume, line 262; centre of gravity,
line 266) have produced values.  Note the source details: the uplift moment
is `hydrostaticUplift * baseWidth / 2` (line 293), and `locationOfRy` is 0 —
not an error — when `verticalReaction = 0` (lines 299–301). -/
def intermediateOf (inputs : DamInputs) (volume centerOfGravity : ℚ) : IntermediateResults :=
  let selfWeight := inputs.concreteDensity * volume
  let upliftArea := calculateUpliftArea inputs
  let waterDensityInKN :=
    match inputs.waterDensityUnit with
    | WaterDensityUnit.kgPerM3 =>
        convertWaterDensity inputs.waterDensity WaterDensityUnit.kgPerM3 WaterDensityUnit.kNPerM3
    | WaterDensityUnit.kNPerM3 => inputs.waterDensity
  let hydrostaticUplift := waterDensityInKN * upliftArea
  let hydrostaticPressure := calculateHydrostaticPressure inputs
  let verticalReaction := selfWeight - hydrostaticUplift
  let horizontalReaction := hydrostaticPressure
  let rightingMoment := selfWeight * centerOfGravity
  let pressureMoment := hydrostaticPressure * (inputs.waterLevel / 3)
  let upliftMoment := hydrostaticUplift * inputs.baseWidth / 2
  let overturningMoment := pressureMoment + upliftMoment
  let locationOfRy :=
    if verticalReaction ≠ 0 then (rightingMoment - overturningMoment) / verticalReaction else 0
  {
    volume := volume
    selfWeight := selfWeight
    centerOfGravity := centerOfGravity
    hydrostaticUplift := hydrostaticUplift
    hydrostaticPressure := hydrostaticPressure
    verticalReaction := verticalReaction
    horizontalReaction := horizontalReaction
    rightingMoment := rightingMoment
    overturningMoment := overturningMoment
    locationOfRy := locationOfRy
    pressureMoment := pressureMoment
    upliftMoment := upliftMoment }

/-- `calculateIntermediateResults` (lines 260–317): runs the two throwing
geometry computations, then the straight-line part `intermediateOf`. -/
def calculateIntermediateResults (inputs : DamInputs) : Except String IntermediateResults := do
  let volume ← calculateVolume inputs
  let centerOfGravity ← calculateCenterOfGravity inputs
  Except.ok (intermediateOf inputs volume centerOfGravity)

/-- One run of the `while` loop of `solveForWaterLevel` (lines 175–201),
fuel-counted by the remaining iterations (`maxIterations = 100`).  The
returned `Bool` records whether the loop stopped by satisfying the
`Math.abs(safFactor - target) < 0.001` tolerance test (`true`) or by
exhausting its iterations (`false`); the source returns only the `ℚ`. -/
def solveForWaterLevelLoop (inputs : DamInputs) (targetSafetyFactor : ℚ)
    (low high mid : ℚ) : Nat → Except String (ℚ × Bool)
  | 0 => Except.ok (mid, false)
  | fuel + 1 => do
      let testInputs := { inputs with waterLevel := mid }
      let r ← calculateIntermediateResults testInputs
      let safFactor := r.rightingMoment /
        (if r.overturningMoment = 0 then 1 else r.overturningMoment)
      if jsAbs (safFactor - targetSafetyFactor) < 1/1000 then
        Except.ok (mid, true)
      else
        let low' := if safFactor > targetSafetyFactor then mid else low
        let high' := if safFactor > targetSafetyFactor then high else mid
        solveForWaterLevelLoop inputs targetSafetyFactor low' high' ((low' + high') / 2) fuel

/-- `solveForWaterLevel` (lines 167–204) with the convergence flag exposed:
bisection on `[0, height]`, 100 iterations, tolerance 0.001. -/
def solveForWaterLevelConv (inputs : DamInputs) (targetSafetyFactor : ℚ) :
    Except String (ℚ × Bool) :=
  solveForWaterLevelLoop inputs targetSafetyFactor 0 inputs.height ((0 + inputs.height) / 2) 100

/-- `solveForWaterLevel` (lines 167–204): the value returned to the caller. -/
def solveForWaterLevel (inputs : DamInputs) (targetSafetyFactor : ℚ) : Except String ℚ :=
  Except.map Prod.fst (solveForWaterLevelConv inputs targetSafetyFactor)

/-- One run of the `while` loop of `solveForBaseWidth` (lines 215–245): as
for the water level, but each iteration first clamps a non-positive midpoint
to `0.1`, and the bracket moves the *lower* bound up when the safety factor
is *below* target. -/
def solveForBaseWidthLoop (inputs : DamInputs) (targetSafetyFactor : ℚ)
    (low high mid : ℚ) : Nat → Except String (ℚ × Bool)
  | 0 => Except.ok (mid, false)
  | fuel + 1 => do
      let mid := if mid ≤ 0 then 1/10 else mid
      let testInputs := { inputs with baseWidth := mid }
      let r ← calculateIntermediateResults testInputs
      let safFactor := r.rightingMoment /
        (if r.overturningMoment = 0 then 1 else r.overturningMoment)
      if jsAbs (safFactor - targetSafetyFactor) < 1/1000 then
        Except.ok (mid, true)
      else
        let low' := if safFactor < targetSafetyFactor then mid else low
        let high' := if safFactor < targetSafetyFactor then high else mid
        solveForBaseWidthLoop inputs targetSafetyFactor low' high' ((low' + high') / 2) fuel

/-- `solveForBaseWidth` (lines 207–248) with the convergence flag exposed:
bisection on `[0.1, height * 10]`, 100 iterations, tolerance 0.001. -/
def solveForBaseWidthConv (inputs : DamInputs) (targetSafetyFactor : ℚ) :
    Except String (ℚ × Bool) :=
  solveForBaseWidthLoop inputs targetSafetyFactor (1/10) (inputs.height * 10)
    ((1/10 + inputs.height * 10) / 2) 100

/-- `solveForBaseWidth` (lines 207–248): the value returned to the caller. -/
def solveForBaseWidth (inputs : DamInputs) (targetSafetyFactor : ℚ) : Except String ℚ :=
  Except.map Prod.fst (solveForBaseWidthConv inputs targetSafetyFactor)

/-- The numeric content of `CalculationResults` from `types.ts` (the
presentation-only `calculationSteps` list of strings is omitted; the
`massMeasurements` sub-record is inlined as two fields). -/
structure CalculationResults where
  selfWeight : ℚ
  hydrostaticUplift : ℚ
  hydrostaticPressure : ℚ
  verticalReaction : ℚ
  horizontalReaction : ℚ
  rightingMoment : ℚ
  overturningMoment : ℚ
  locationOfRy : ℚ
  safetyFactorSliding : Option ℚ
  safetyFactorOverturning : ℚ
  solvedParameter : Option (String × ℚ)
  selfWeightMass : ℚ
  massUnit : MassUnit
deriving DecidableEq, Repr

/-- The solving phase of `calculateDamStability` (lines 350–392): under
`if (solveFor !== 'none' && targetSafetyFactor)` (JS truthiness: an absent
or zero target disables solving, line 354), the `waterLevel`/`baseWidth`
branches first evaluate `calculateIntermediateResults(inputs)` (lines 358,
376) — its value is unused but its exception propagates — then run the
bisection solver and substitute the solved value into a copy of the inputs.
The `frictionCoefficient` selector matches no branch here (it is handled at
lines 410–429, after the main intermediate run). -/
def solvePhase (inputs : DamInputs) : Except String (DamInputs × Option (String × ℚ)) :=
  match inputs.solveFor, truthyOpt inputs.targetSafetyFactor with
  | SolveFor.waterLevel, true => do
      let _ ← calculateIntermediateResults inputs
      let solvedWaterLevel ← solveForWaterLevel inputs (inputs.targetSafetyFactor.getD 0)
      Except.ok ({ inputs with waterLevel := solvedWaterLevel },
        Option.some ("waterLevel", solvedWaterLevel))
  | SolveFor.baseWidth, true => do
      let _ ← calculateIntermediateResults inputs
      let solvedBaseWidth ← solveForBaseWidth inputs (inputs.targetSafetyFactor.getD 0)
      Except.ok ({ inputs with baseWidth := solvedBaseWidth },
        Option.some ("baseWidth", solvedBaseWidth))
  | _, _ => Except.ok (inputs, Option.none)

/-- The result-assembly tail of `calculateDamStability` (lines 410–616),
applied to the intermediate results `r` of the (possibly substituted) run
and the solved parameter of the solving phase.  Faithful points of note:
* the friction coefficient is solved *after* the main intermediate run from
  its reactions and stored in `solvedParameter` (lines 411–419, again under
  JS truthiness of the target);
* the sliding factor (line 569) is computed from the *destructured original*
  `inputs.frictionCoefficient`, not from the solved coefficient that
  line 418 assigns to `modifiedInputs.frictionCoefficient`. -/
def assembleResults (inputs : DamInputs) (r : IntermediateResults)
    (solvedParameter₀ : Option (String × ℚ)) : CalculationResults :=
  let solvedParameter :=
    match inputs.solveFor, truthyOpt inputs.targetSafetyFactor with
    | SolveFor.frictionCoefficient, true =>
        Option.some ("frictionCoefficient",
          solveForFrictionCoefficient r.verticalReaction r.horizontalReaction
            (inputs.targetSafetyFactor.getD 0))
    | _, _ => solvedParameter₀
  let safetyFactorSliding :=
    match inputs.needsFrictionCalculation, inputs.frictionCoefficient with
    | true, Option.some _ =>
        calculateSlidingSafetyFactor r.verticalReaction r.horizontalReaction
          inputs.frictionCoefficient inputs.needsFrictionCalculation
    | _, _ => Option.none
  let safetyFactorOverturning := calculateOverturningFactor r.rightingMoment r.overturningMoment
  let massPair := forceToMass r.selfWeight inputs.unitSystem
  {
    selfWeight := r.selfWeight
    hydrostaticUplift := r.hydrostaticUplift
    hydrostaticPressure := r.hydrostaticPressure
    verticalReaction := r.verticalReaction
    horizontalReaction := r.horizontalReaction
    rightingMoment := r.rightingMoment
    overturningMoment := r.overturningMoment
    locationOfRy := r.locationOfRy
    safetyFactorSliding := safetyFactorSliding
    safetyFactorOverturning := safetyFactorOverturning
    solvedParameter := solvedParameter
    selfWeightMass := massPair.1
    massUnit := massPair.2 }

/-- `calculateDamStability` (lines 320–616): the solving phase, then
`calculateIntermediateResults` on the possibly substituted inputs, then the
assembly of the results record. -/
def calculateDamStability (inputs : DamInputs) : Except String CalculationResults := do
  let (modifiedInputs, solvedParameter₀) ← solvePhase inputs
  let r ← calculateIntermediateResults modifiedInputs
  Except.ok (assembleResults inputs r solvedParameter₀)

/-! ## Inversion lemmas -/

/-- One explicit unfolding step of the water-level bisection loop. -/
lemma solveForWaterLevelLoop_succ (inputs : DamInputs) (t low high mid : ℚ) (fuel : ℕ) :
    solveForWaterLevelLoop inputs t low high mid (fuel + 1) = (do
      let r ← calculateIntermediateResults { inputs with waterLevel := mid }
      let safFactor := r.rightingMoment /
        (if r.overturningMoment = 0 then 1 else r.overturningMoment)
      if jsAbs (safFactor - t) < 1/1000 then
        Except.ok (mid, true)
      else
        let low' := if safFactor > t then mid else low
        let high' := if safFactor > t then high else mid
        solveForWaterLevelLoop inputs t low' high' ((low' + high') / 2) fuel) := rfl

/-- One explicit unfolding step of the base-width bisection loop. -/
lemma solveForBaseWidthLoop_succ (inputs : DamInputs) (t low high mid : ℚ) (fuel : ℕ) :
    solveForBaseWidthLoop inputs t low high mid (fuel + 1) = (do
      let mid := if mid ≤ 0 then 1/10 else mid
      let r ← calculateIntermediateResults { inputs with baseWidth := mid }
      let safFactor := r.rightingMoment /
        (if r.overturningMoment = 0 then 1 else r.overturningMoment)
      if jsAbs (safFactor - t) < 1/1000 then
        Except.ok (mid, true)
      else
        let low' := if safFactor < t then mid else low
        let high' := if safFactor < t then high else mid
        solveForBaseWidthLoop inputs t low' high' ((low' + high') / 2) fuel) := rfl

/-- A successful `calculateIntermediateResults` run is exactly a successful
volume and centre-of-gravity computation followed by `intermediateOf`. -/
lemma calculateIntermediateResults_ok_iff (inputs : DamInputs) (ir : IntermediateResults) :
    calculateIntermediateResults inputs = Except.ok ir ↔
    ∃ v cg, calculateVolume inputs = Except.ok v ∧
      calculateCenterOfGravity inputs = Except.ok cg ∧ ir = intermediateOf inputs v cg := by
  unfold calculateIntermediateResults
  cases hv : calculateVolume inputs <;> cases hc : calculateCenterOfGravity inputs <;>
    simp [Bind.bind, Except.bind, eq_comm]

/-- A successful `calculateDamStability` run is exactly a successful solving
phase, a successful intermediate run on the substituted inputs, and the
assembly of the results record. -/
lemma calculateDamStability_ok_iff (inputs : DamInputs) (res : CalculationResults) :
    calculateDamStability inputs = Except.ok res ↔
    ∃ mi sp ir, solvePhase inputs = Except.ok (mi, sp) ∧
      calculateIntermediateResults mi = Except.ok ir ∧
      res = assembleResults inputs ir sp := by
  unfold calculateDamStability
  cases hsp : solvePhase inputs with
  | error e => simp [Bind.bind, Except.bind]
  | ok p =>
      obtain ⟨mi, sp⟩ := p
      simp only [Bind.bind, Except.bind]
      cases hir : calculateIntermediateResults mi with
      | error e =>
          constructor
          · intro h
            exact absurd h (by simp)
          · rintro ⟨mi1, sp1, ir1, hpair, hir1, _⟩
            obtain ⟨rfl, rfl⟩ : mi = mi1 ∧ sp = sp1 := by
              have hp := Except.ok.inj hpair
              exact ⟨congrArg Prod.fst hp, congrArg Prod.snd hp⟩
            rw [hir] at hir1
            exact absurd hir1 (by simp)
      | ok ir =>
          simp only [Except.ok.injEq, Prod.mk.injEq]
          constructor
          · intro hres
            exact ⟨mi, sp, ir, ⟨rfl, rfl⟩, hir, hres.symm⟩
          · rintro ⟨mi1, sp1, ir1, ⟨rfl, rfl⟩, hir1, hres⟩
            rw [hir] at hir1
            cases hir1
            exact hres.symm

/-! ## Concrete input records used by the claims -/

/-- The spec's end-to-end scenario: rectangle dam, baseWidth 10 m, height 8 m,
waterLevel 6 m, concreteDensity 23.5 kN/m³, waterDensity 9.81 kN/m³,
frictionCoefficient 0.7, no uplift, metric units, no solve-for. -/
def c1Inputs : DamInputs := {
  structureType := StructureType.rectangle
  baseWidth := 10
  height := 8
  waterLevel := 6
  crestWidth := Option.none
  concreteDensity := 23.5
  waterDensity := 9.81
  waterDensityUnit := WaterDensityUnit.kNPerM3
  frictionCoefficient := Option.some 0.7
  heelUplift := Option.none
  toeUplift := Option.none
  unitSystem := UnitSystem.metric
  solveFor := SolveFor.none
  targetSafetyFactor := Option.none
  needsFrictionCalculation := true }

/-- A triangle profile with a nonzero uplift head on both heel and toe:
baseWidth 6, height 3, waterLevel 1, heelUplift = toeUplift = 1. -/
def c2CexInputs : DamInputs := {
  structureType := StructureType.triangle
  baseWidth := 6
  height := 3
  waterLevel := 1
  crestWidth := Option.none
  concreteDensity := 23.5
  waterDensity := 9.81
  waterDensityUnit := WaterDensityUnit.kNPerM3
  frictionCoefficient := Option.none
  heelUplift := Option.some 1
  toeUplift := Option.some 1
  unitSystem := UnitSystem.metric
  solveFor := SolveFor.none
  targetSafetyFactor := Option.none
  needsFrictionCalculation := false }

/-- A rectangle whose self-weight exactly cancels its hydrostatic uplift
(concreteDensity = waterDensity = 9.81, uplift head 1 over the whole base),
so the vertical reaction is 0. -/
def c4CexInputs : DamInputs := {
  structureType := StructureType.rectangle
  baseWidth := 2
  height := 1
  waterLevel := 1
  crestWidth := Option.none
  concreteDensity := 9.81
  waterDensity := 9.81
  waterDensityUnit := WaterDensityUnit.kNPerM3
  frictionCoefficient := Option.none
  heelUplift := Option.some 1
  toeUplift := Option.some 1
  unitSystem := UnitSystem.metric
  solveFor := SolveFor.none
  targetSafetyFactor := Option.none
  needsFrictionCalculation := false }

/-- The C1 scenario with the reservoir empty (`waterLevel = 0`), so the
horizontal reaction is 0 while the friction coefficient is known. -/
def c5CexInputs : DamInputs := { c1Inputs with waterLevel := 0 }

/-- The C1 scenario asking to solve for the friction coefficient with target
sliding safety factor 2. -/
def c3CexInputs : DamInputs :=
  { c1Inputs with solveFor := SolveFor.frictionCoefficient, targetSafetyFactor := Option.some 2 }

/-- The C1 scenario asking to solve for the water level, with the target
chosen so that the bisection converges at its first midpoint (4). -/
def c3WlInputs : DamInputs :=
  { c1Inputs with
    solveFor := SolveFor.waterLevel
    targetSafetyFactor := Option.some (29375/327) }

/-- The C1 scenario with an active solve-for selector but no target factor. -/
def c10Inputs : DamInputs := { c1Inputs with solveFor := SolveFor.waterLevel }

/-- The C1 scenario with a degenerate height of 1/250 (and a correspondingly
small water level), for which the base-width search bracket
`[0.1, height × 10] = [0.1, 0.04]` is empty. -/
def c8CexInputs : DamInputs := { c1Inputs with height := 1/250, waterLevel := 1/1000 }

/-! ## Claims -/

/-- **C1** For the rectangle scenario (baseWidth 10, height 8, waterLevel 6,
concreteDensity 23.5, waterDensity 9.81 kN/m³, frictionCoefficient 0.7, no
uplift, metric), `calculateDamStability` returns exactly volume 80,
selfWeight 1880, hydrostaticPressure 176.58, verticalReaction 1880,
horizontalReaction 176.58, rightingMoment 9400, pressureMoment 353.16,
overturningMoment 353.16, safetyFactorSliding (0.7·1880)/176.58 and
safetyFactorOverturning 9400/353.16. -/
theorem claim1_rectangle_end_to_end :
    (calculateIntermediateResults c1Inputs).map
      (fun ir => (ir.volume, ir.pressureMoment)) = Except.ok (80, 353.16) ∧
    (calculateDamStability c1Inputs).map
      (fun r => (r.selfWeight, r.hydrostaticPressure, r.verticalReaction,
        r.horizontalReaction, r.rightingMoment, r.overturningMoment,
        r.safetyFactorSliding, r.safetyFactorOverturning)) =
      Except.ok (1880, 176.58, 1880, 176.58, 9400, 353.16,
        Option.some ((0.7 * 1880) / 176.58), 9400 / 353.16) := by
  constructor
  · norm_num [calculateIntermediateResults, intermediateOf, calculateVolume,
      calculateCenterOfGravity, calculateUpliftArea, calculateHydrostaticPressure,
      convertWaterDensity, c1Inputs, Bind.bind, Except.bind, Except.map]
  · norm_num [calculateDamStability, solvePhase, assembleResults,
      calculateIntermediateResults, intermediateOf, calculateVolume,
      calculateCenterOfGravity, calculateUpliftArea, calculateHydrostaticPressure,
      convertWaterDensity, calculateSlidingSafetyFactor, calculateOverturningFactor,
      forceToMass, truthyOpt, c1Inputs, Bind.bind, Except.bind, Except.map]

/-- **C6** For every input with `structureType = trapezoid` and `crestWidth`
missing, `calculateDamStability` fails with the missing-required-dimension
error (the volume computation throws before any force or moment is derived)
and produces no numeric result. -/
theorem claim6_trapezoid_missing_crest_fails (inputs : DamInputs)
    (hty : inputs.structureType = StructureType.trapezoid)
    (hcw : inputs.crestWidth = Option.none) :
    calculateDamStability inputs = Except.error "Crest width required for trapezoid" := by
  have hir : calculateIntermediateResults inputs =
      Except.error "Crest width required for trapezoid" := by
    simp [calculateIntermediateResults, calculateVolume, hty, hcw, Bind.bind, Except.bind]
  unfold calculateDamStability solvePhase
  rcases hsf : inputs.solveFor <;> rcases htr : truthyOpt inputs.targetSafetyFactor <;>
    simp [hsf, htr, hir, Bind.bind, Except.bind]

/-- Witness for C6: a concrete trapezoid record without a crest width is
rejected with the construction error. -/
theorem claim6_witness :
    { c1Inputs with structureType := StructureType.trapezoid }.structureType =
        StructureType.trapezoid ∧
      { c1Inputs with structureType := StructureType.trapezoid }.crestWidth = Option.none ∧
      calculateDamStability { c1Inputs with structureType := StructureType.trapezoid } =
        Except.error "Crest width required for trapezoid" :=
  ⟨rfl, rfl, claim6_trapezoid_missing_crest_fails _ rfl rfl⟩

/-- **C9** `convertWaterDensity` is the identity when the two units coincide
(exactly — over `ℚ` no rounding exists to introduce), and round-tripping
through the other unit returns the input exactly (hence a fortiori within any
floating tolerance). -/
theorem claim9_convert_identity_and_involutive :
    (∀ (d : ℚ) (u : WaterDensityUnit), convertWaterDensity d u u = d) ∧
    (∀ (x : ℚ) (u₁ u₂ : WaterDensityUnit),
      convertWaterDensity (convertWaterDensity x u₁ u₂) u₂ u₁ = x) := by
  constructor
  · intro d u
    cases u <;> rfl
  · intro x u₁ u₂
    cases u₁ <;> cases u₂ <;> simp [convertWaterDensity]

/-- Counterexample to **C2**: on the triangle profile with uplift, the
engine's uplift moment (force × baseWidth/2 = 176.58) differs from the
uplift force times the self-weight centroid offset (58.86 × 2 = 117.72). -/
theorem claim2_counterexample :
    (calculateIntermediateResults c2CexInputs).map
      (fun ir => (ir.upliftMoment, ir.hydrostaticUplift * ir.centerOfGravity)) =
      Except.ok (176.58, 117.72) ∧ (176.58 : ℚ) ≠ 117.72 := by
  constructor
  · norm_num [calculateIntermediateResults, intermediateOf, calculateVolume,
      calculateCenterOfGravity, calculateUpliftArea, calculateHydrostaticPressure,
      convertWaterDensity, c2CexInputs, Bind.bind, Except.bind, Except.map]
  · norm_num

/-- **C2 as amended**: for every well-formed input, the engine's uplift
moment is the hydrostatic uplift force times `baseWidth / 2` — the lever arm
of the *rectangle* centroid, which coincides with the self-weight centroid
offset only for the rectangle profile (or when the uplift force is zero). -/
theorem claim2_amended_uplift_moment (inputs : DamInputs) (ir : IntermediateResults)
    (h : calculateIntermediateResults inputs = Except.ok ir) :
    ir.upliftMoment = ir.hydrostaticUplift * (inputs.baseWidth / 2) := by
  obtain ⟨v, cg, hv, hc, rfl⟩ := (calculateIntermediateResults_ok_iff inputs ir).1 h
  simp only [intermediateOf]
  ring

/-- Witness for the amended C2 at the concrete triangle record. -/
theorem claim2_witness :
    (intermediateOf c2CexInputs 9 2).upliftMoment =
      (intermediateOf c2CexInputs 9 2).hydrostaticUplift *
        (c2CexInputs.baseWidth / 2) :=
  claim2_amended_uplift_moment c2CexInputs (intermediateOf c2CexInputs 9 2) (by
    norm_num [calculateIntermediateResults, calculateVolume, calculateCenterOfGravity,
      c2CexInputs, Bind.bind, Except.bind])

/-- Counterexample to **C4**: at a record whose self-weight exactly cancels
its uplift, the engine succeeds and reports the plain number 0 in
`locationOfRy` — no dedicated degenerate-reaction condition is surfaced. -/
theorem claim4_counterexample :
    (calculateDamStability c4CexInputs).map
      (fun r => (r.verticalReaction, r.locationOfRy)) = Except.ok (0, 0) := by
  norm_num [calculateDamStability, solvePhase, assembleResults,
    calculateIntermediateResults, intermediateOf, calculateVolume,
    calculateCenterOfGravity, calculateUpliftArea, calculateHydrostaticPressure,
    convertWaterDensity, calculateSlidingSafetyFactor, calculateOverturningFactor,
    forceToMass, truthyOpt, c4CexInputs, Bind.bind, Except.bind, Except.map]

/-- **C4 as amended**: when the vertical reaction is 0 the engine guards the
resultant-location division and reports `locationOfRy = 0` (an ordinary
in-band number, not NaN/Infinity and not a distinct error condition). -/
theorem claim4_amended_zero_reaction (inputs : DamInputs) (ir : IntermediateResults)
    (h : calculateIntermediateResults inputs = Except.ok ir)
    (h0 : ir.verticalReaction = 0) : ir.locationOfRy = 0 := by
  obtain ⟨v, cg, hv, hc, rfl⟩ := (calculateIntermediateResults_ok_iff inputs ir).1 h
  simp only [intermediateOf] at h0 ⊢
  simp [h0]

/-- Witness for the amended C4 at the zero-reaction record. -/
theorem claim4_witness : (intermediateOf c4CexInputs (2 * 1) 1).locationOfRy = 0 :=
  claim4_amended_zero_reaction c4CexInputs (intermediateOf c4CexInputs (2 * 1) 1)
    (by norm_num [calculateIntermediateResults, calculateVolume, calculateCenterOfGravity,
      c4CexInputs, Bind.bind, Except.bind])
    (by norm_num [intermediateOf, calculateUpliftArea, calculateHydrostaticPressure,
      convertWaterDensity, c4CexInputs])

/-- Counterexample to **C5**: with a known friction coefficient (0.7) and no
water load (`horizontalReaction = 0`), `safetyFactorSliding` is *present* in
the results (the unguarded division is performed), contradicting the claimed
absence whenever `horizontalReaction = 0`. -/
theorem claim5_counterexample :
    (calculateDamStability c5CexInputs).map
      (fun r => (r.horizontalReaction, r.safetyFactorSliding.isSome)) =
      Except.ok (0, true) ∧ c5CexInputs.frictionCoefficient = Option.some 0.7 := by
  constructor
  · norm_num [calculateDamStability, solvePhase, assembleResults,
      calculateIntermediateResults, intermediateOf, calculateVolume,
      calculateCenterOfGravity, calculateUpliftArea, calculateHydrostaticPressure,
      convertWaterDensity, calculateSlidingSafetyFactor, calculateOverturningFactor,
      forceToMass, truthyOpt, c5CexInputs, c1Inputs, Bind.bind, Except.bind, Except.map]
  · rfl

/-- **C5 as amended**: `safetyFactorSliding` is absent from the results
exactly when `needsFrictionCalculation` is false or the friction coefficient
is unknown; `horizontalReaction = 0` does not suppress it (the division is
performed unguarded — in IEEE arithmetic it yields a non-finite value). -/
theorem claim5_amended_sliding_absence (inputs : DamInputs) (res : CalculationResults)
    (h : calculateDamStability inputs = Except.ok res) :
    (res.safetyFactorSliding = Option.none ↔
      (inputs.needsFrictionCalculation = false ∨ inputs.frictionCoefficient = Option.none)) := by
  obtain ⟨mi, sp, ir, hsp, hir, rfl⟩ := (calculateDamStability_ok_iff inputs res).1 h
  rcases hn : inputs.needsFrictionCalculation <;> rcases hμ : inputs.frictionCoefficient <;>
    simp [assembleResults, calculateSlidingSafetyFactor, hn, hμ]

/-- Witness for the amended C5: for the C1 record the friction factor is
present, and indeed friction is requested with a known coefficient. -/
theorem claim5_witness :
    (assembleResults c1Inputs (intermediateOf c1Inputs 80 5) Option.none).safetyFactorSliding
      ≠ Option.none := by
  have h := claim5_amended_sliding_absence c1Inputs
    (assembleResults c1Inputs (intermediateOf c1Inputs 80 5) Option.none) (by
      norm_num [calculateDamStability, solvePhase, calculateIntermediateResults,
        calculateVolume, calculateCenterOfGravity, truthyOpt, c1Inputs,
        Bind.bind, Except.bind])
  intro hnone
  rcases h.1 hnone with h' | h' <;> simp [c1Inputs] at h'

/-- **C10** When `solveFor` names an unknown but `targetSafetyFactor` is
absent or exactly 0 (both JS-falsy), `calculateDamStability` silently
performs no solving: it returns exactly what it returns for the same inputs
with `solveFor = none`, and any successful result carries no
`solvedParameter`. -/
theorem claim10_falsy_target_disables_solving (inputs : DamInputs)
    (_hs : inputs.solveFor ≠ SolveFor.none)
    (ht : inputs.targetSafetyFactor = Option.none ∨ inputs.targetSafetyFactor = Option.some 0) :
    calculateDamStability inputs =
      calculateDamStability { inputs with solveFor := SolveFor.none } ∧
    ∀ res, calculateDamStability inputs = Except.ok res →
      res.solvedParameter = Option.none := by
  have htr : truthyOpt inputs.targetSafetyFactor = false := by
    rcases ht with h | h <;> simp [truthyOpt, h]
  have hsp : solvePhase inputs = Except.ok (inputs, Option.none) := by
    unfold solvePhase
    rcases hsf : inputs.solveFor <;> simp [hsf, htr]
  have hsp' : solvePhase { inputs with solveFor := SolveFor.none } =
      Except.ok ({ inputs with solveFor := SolveFor.none }, Option.none) := rfl
  have hIR : calculateIntermediateResults { inputs with solveFor := SolveFor.none } =
      calculateIntermediateResults inputs := rfl
  have hasm : ∀ r, assembleResults inputs r Option.none =
      assembleResults { inputs with solveFor := SolveFor.none } r Option.none := by
    intro r
    unfold assembleResults
    rcases hsf : inputs.solveFor <;> simp [hsf, htr]
  constructor
  · unfold calculateDamStability
    rw [hsp, hsp']
    simp only [Bind.bind, Except.bind]
    rw [hIR]
    cases hr : calculateIntermediateResults inputs <;> simp [hr, hasm]
  · intro res hres
    obtain ⟨mi, sp, ir, hsp2, hir2, rfl⟩ := (calculateDamStability_ok_iff inputs res).1 hres
    rw [hsp] at hsp2
    have hp := Except.ok.inj hsp2
    obtain rfl : sp = Option.none := (congrArg Prod.snd hp).symm
    unfold assembleResults
    rcases hsf : inputs.solveFor <;> simp [hsf, htr]

/-- Witness for C10: with `solveFor = waterLevel` and no target, the result
equals the `solveFor = none` run. -/
theorem claim10_witness :
    calculateDamStability c10Inputs =
      calculateDamStability { c10Inputs with solveFor := SolveFor.none } :=
  (claim10_falsy_target_disables_solving c10Inputs (by decide) (Or.inl rfl)).1

/-- Counterexample to **C3**: solving for the friction coefficient (target 2)
records the solved value 2·176.58/1880 in `solvedParameter`, but
`safetyFactorSliding` is still 0.7·1880/176.58 — computed from the original
input coefficient 0.7, not from the solved one (which would give exactly 2). -/
theorem claim3_counterexample :
    (calculateDamStability c3CexInputs).map
      (fun r => (r.solvedParameter, r.safetyFactorSliding)) =
      Except.ok (Option.some ("frictionCoefficient", 2 * 176.58 / 1880),
        Option.some (0.7 * 1880 / 176.58)) ∧
    (0.7 * 1880 / 176.58 : ℚ) ≠ 2 * 176.58 / 1880 * 1880 / 176.58 := by
  constructor
  · norm_num [calculateDamStability, solvePhase, assembleResults,
      calculateIntermediateResults, intermediateOf, calculateVolume,
      calculateCenterOfGravity, calculateUpliftArea, calculateHydrostaticPressure,
      convertWaterDensity, calculateSlidingSafetyFactor, calculateOverturningFactor,
      solveForFrictionCoefficient, forceToMass, truthyOpt, c3CexInputs, c1Inputs,
      Bind.bind, Except.bind, Except.map]
  · norm_num

/-- **C3 as amended**: with an active solve-for and a truthy (nonzero)
target, the returned record is assembled from the intermediate results of
the inputs with the solved value substituted, and `solvedParameter` records
name and value — for `waterLevel` and `baseWidth`.  When the unknown is
`frictionCoefficient`, `solvedParameter` records the closed-form solution
computed from the run's reactions, but `safetyFactorSliding` is computed
from the *original* input coefficient (absent when that is absent), not
from the solved one. -/
theorem claim3_amended_substitution (inputs : DamInputs) (t : ℚ)
    (ht : inputs.targetSafetyFactor = Option.some t) (ht0 : t ≠ 0) :
    (inputs.solveFor = SolveFor.waterLevel → ∀ w ir res,
      solveForWaterLevel inputs t = Except.ok w →
      calculateIntermediateResults { inputs with waterLevel := w } = Except.ok ir →
      calculateDamStability inputs = Except.ok res →
      res = assembleResults inputs ir (Option.some ("waterLevel", w))) ∧
    (inputs.solveFor = SolveFor.baseWidth → ∀ b ir res,
      solveForBaseWidth inputs t = Except.ok b →
      calculateIntermediateResults { inputs with baseWidth := b } = Except.ok ir →
      calculateDamStability inputs = Except.ok res →
      res = assembleResults inputs ir (Option.some ("baseWidth", b))) ∧
    (inputs.solveFor = SolveFor.frictionCoefficient → ∀ ir res,
      calculateIntermediateResults inputs = Except.ok ir →
      calculateDamStability inputs = Except.ok res →
      res.solvedParameter = Option.some ("frictionCoefficient",
        solveForFrictionCoefficient ir.verticalReaction ir.horizontalReaction t) ∧
      res.safetyFactorSliding = calculateSlidingSafetyFactor ir.verticalReaction
        ir.horizontalReaction inputs.frictionCoefficient inputs.needsFrictionCalculation) := by
  have htr : truthyOpt inputs.targetSafetyFactor = true := by
    simp [truthyOpt, ht, ht0]
  have hgetD : inputs.targetSafetyFactor.getD 0 = t := by simp [ht]
  refine ⟨?_, ?_, ?_⟩
  · intro hsf w ir res hw hir hres
    obtain ⟨mi, sp, ir2, hsp2, hir2, rfl⟩ := (calculateDamStability_ok_iff inputs res).1 hres
    unfold solvePhase at hsp2
    simp only [hsf, htr, hgetD, Bind.bind, Except.bind] at hsp2
    cases hpre : calculateIntermediateResults inputs with
    | error e =>
        rw [hpre] at hsp2
        simp only [] at hsp2
        exact absurd hsp2 (by simp)
    | ok pre =>
        rw [hpre] at hsp2
        simp only [hw] at hsp2
        obtain ⟨h1, h2⟩ := Prod.mk.inj (Except.ok.inj hsp2)
        have hIRsame : calculateIntermediateResults mi =
            calculateIntermediateResults { inputs with waterLevel := w } := by
          rw [← h1, ← hsf]
        rw [hIRsame, hir] at hir2
        cases hir2
        rw [← h2]
  · intro hsf b ir res hb hir hres
    obtain ⟨mi, sp, ir2, hsp2, hir2, rfl⟩ := (calculateDamStability_ok_iff inputs res).1 hres
    unfold solvePhase at hsp2
    simp only [hsf, htr, hgetD, Bind.bind, Except.bind] at hsp2
    cases hpre : calculateIntermediateResults inputs with
    | error e =>
        rw [hpre] at hsp2
        simp only [] at hsp2
        exact absurd hsp2 (by simp)
    | ok pre =>
        rw [hpre] at hsp2
        simp only [hb] at hsp2
        obtain ⟨h1, h2⟩ := Prod.mk.inj (Except.ok.inj hsp2)
        have hIRsame : calculateIntermediateResults mi =
            calculateIntermediateResults { inputs with baseWidth := b } := by
          rw [← h1, ← hsf]
        rw [hIRsame, hir] at hir2
        cases hir2
        rw [← h2]
  · intro hsf ir res hir hres
    obtain ⟨mi, sp, ir2, hsp2, hir2, rfl⟩ := (calculateDamStability_ok_iff inputs res).1 hres
    unfold solvePhase at hsp2
    simp only [hsf] at hsp2
    obtain ⟨h1, h2⟩ := Prod.mk.inj (Except.ok.inj hsp2)
    subst h1
    subst h2
    rw [hir] at hir2
    cases hir2
    constructor
    · unfold assembleResults
      rw [hsf]
      rw [htr]
      simp [hgetD]
    · unfold assembleResults
      rcases hn : inputs.needsFrictionCalculation <;>
        rcases hμ : inputs.frictionCoefficient <;>
          simp [calculateSlidingSafetyFactor, hn, hμ]

/-- Witness for the amended C3 at the friction-coefficient record: the
solved coefficient is recorded while the sliding factor still uses the
original input coefficient. -/
theorem claim3_witness :
    (assembleResults c3CexInputs (intermediateOf c3CexInputs 80 5)
        Option.none).solvedParameter =
      Option.some ("frictionCoefficient",
        solveForFrictionCoefficient (intermediateOf c3CexInputs 80 5).verticalReaction
          (intermediateOf c3CexInputs 80 5).horizontalReaction 2) ∧
    (assembleResults c3CexInputs (intermediateOf c3CexInputs 80 5)
        Option.none).safetyFactorSliding =
      calculateSlidingSafetyFactor (intermediateOf c3CexInputs 80 5).verticalReaction
        (intermediateOf c3CexInputs 80 5).horizontalReaction
        c3CexInputs.frictionCoefficient c3CexInputs.needsFrictionCalculation :=
  (claim3_amended_substitution c3CexInputs 2 rfl (by norm_num)).2.2 rfl
    (intermediateOf c3CexInputs 80 5)
    (assembleResults c3CexInputs (intermediateOf c3CexInputs 80 5) Option.none)
    (by norm_num [calculateIntermediateResults, calculateVolume,
      calculateCenterOfGravity, c3CexInputs, c1Inputs, Bind.bind, Except.bind])
    (by norm_num [calculateDamStability, solvePhase, calculateIntermediateResults,
      calculateVolume, calculateCenterOfGravity, truthyOpt, c3CexInputs, c1Inputs,
      Bind.bind, Except.bind])

/-- Bracket invariant of the water-level bisection loop: every successful
result lies between any enclosing bounds of the current bracket. -/
lemma solveForWaterLevelLoop_mem (inputs : DamInputs) (t lo hi : ℚ) :
    ∀ (fuel : ℕ) (low high mid : ℚ), lo ≤ low → low ≤ mid → mid ≤ high → high ≤ hi →
      ∀ p, solveForWaterLevelLoop inputs t low high mid fuel = Except.ok p →
      lo ≤ p.1 ∧ p.1 ≤ hi := by
  intro fuel
  induction fuel with
  | zero =>
      intro low high mid h1 h2 h3 h4 p hp
      rw [show solveForWaterLevelLoop inputs t low high mid 0 = Except.ok (mid, false)
        from rfl] at hp
      cases hp
      exact ⟨by linarith, by linarith⟩
  | succ n ih =>
      intro low high mid h1 h2 h3 h4 p hp
      rw [solveForWaterLevelLoop_succ] at hp
      cases hr : calculateIntermediateResults { inputs with waterLevel := mid } with
      | error e =>
          rw [hr] at hp
          exact absurd hp (by simp [Bind.bind, Except.bind])
      | ok r =>
          rw [hr] at hp
          simp only [Bind.bind, Except.bind] at hp
          by_cases htol : jsAbs (r.rightingMoment /
              (if r.overturningMoment = 0 then 1 else r.overturningMoment) - t) < 1/1000
          · rw [if_pos htol] at hp
            cases hp
            exact ⟨by linarith, by linarith⟩
          · rw [if_neg htol] at hp
            by_cases hgt : r.rightingMoment /
                (if r.overturningMoment = 0 then 1 else r.overturningMoment) > t
            · rw [if_pos hgt, if_pos hgt] at hp
              exact ih mid high ((mid + high) / 2) (by linarith) (by linarith)
                (by linarith) h4 p hp
            · rw [if_neg hgt, if_neg hgt] at hp
              exact ih low mid ((low + mid) / 2) h1 (by linarith) (by linarith)
                (by linarith) p hp

/-- Bracket invariant of the base-width bisection loop (the lower bound must
be positive so that the `mid <= 0` clamp never fires). -/
lemma solveForBaseWidthLoop_mem (inputs : DamInputs) (t lo hi : ℚ) (hlo : 0 < lo) :
    ∀ (fuel : ℕ) (low high mid : ℚ), lo ≤ low → low ≤ mid → mid ≤ high → high ≤ hi →
      ∀ p, solveForBaseWidthLoop inputs t low high mid fuel = Except.ok p →
      lo ≤ p.1 ∧ p.1 ≤ hi := by
  intro fuel
  induction fuel with
  | zero =>
      intro low high mid h1 h2 h3 h4 p hp
      rw [show solveForBaseWidthLoop inputs t low high mid 0 = Except.ok (mid, false)
        from rfl] at hp
      cases hp
      exact ⟨by linarith, by linarith⟩
  | succ n ih =>
      intro low high mid h1 h2 h3 h4 p hp
      rw [solveForBaseWidthLoop_succ] at hp
      have hmid0 : ¬(mid ≤ 0) := by linarith
      rw [if_neg hmid0] at hp
      simp only [] at hp
      cases hr : calculateIntermediateResults { inputs with baseWidth := mid } with
      | error e =>
          rw [hr] at hp
          exact absurd hp (by simp [Bind.bind, Except.bind])
      | ok r =>
          rw [hr] at hp
          simp only [Bind.bind, Except.bind] at hp
          by_cases htol : jsAbs (r.rightingMoment /
              (if r.overturningMoment = 0 then 1 else r.overturningMoment) - t) < 1/1000
          · rw [if_pos htol] at hp
            cases hp
            exact ⟨by linarith, by linarith⟩
          · rw [if_neg htol] at hp
            by_cases hlt : r.rightingMoment /
                (if r.overturningMoment = 0 then 1 else r.overturningMoment) < t
            · rw [if_pos hlt, if_pos hlt] at hp
              exact ih mid high ((mid + high) / 2) (by linarith) (by linarith)
                (by linarith) h4 p hp
            · rw [if_neg hlt, if_neg hlt] at hp
              exact ih low mid ((low + mid) / 2) h1 (by linarith) (by linarith)
                (by linarith) p hp

/-- Counterexample to **C8**: for a record with height 1/250 the base-width
search bracket `[0.1, height × 10] = [0.1, 0.04]` is empty, and the solver
returns 0.07 — outside the bracket (it converges at its first midpoint for
this target). -/
theorem claim8_counterexample :
    solveForBaseWidth c8CexInputs (46060000/327) = Except.ok (7/100) ∧
    ¬(1/10 ≤ (7/100 : ℚ) ∧ (7/100 : ℚ) ≤ c8CexInputs.height * 10) := by
  constructor
  · rw [solveForBaseWidth, solveForBaseWidthConv, show (100:ℕ) = 99+1 from rfl,
      solveForBaseWidthLoop_succ]
    norm_num [calculateIntermediateResults, intermediateOf, calculateVolume,
      calculateCenterOfGravity, calculateUpliftArea, calculateHydrostaticPressure,
      convertWaterDensity, jsAbs, c8CexInputs, c1Inputs, Bind.bind, Except.bind,
      Except.map]
  · norm_num [c8CexInputs, c1Inputs]

/-- **C8 as amended**: both solvers are total (the loop is bounded by its
100-iteration fuel by construction, and on exhaustion returns the current
midpoint), and every successfully returned value lies in the search bracket
*provided the bracket is well-formed*: `height ≥ 0` for the water-level
solver, and `height ≥ 0.01` (so that `0.1 ≤ height × 10`) for the base-width
solver.  For degenerate heights the bracket is empty and the returned value
can lie outside it; on a throwing geometry (trapezoid without crest width)
the solvers propagate the construction error instead of returning a value. -/
theorem claim8_amended_bracket (inputs : DamInputs) (t : ℚ) :
    (0 ≤ inputs.height → ∀ w, solveForWaterLevel inputs t = Except.ok w →
      0 ≤ w ∧ w ≤ inputs.height) ∧
    (1/100 ≤ inputs.height → ∀ b, solveForBaseWidth inputs t = Except.ok b →
      1/10 ≤ b ∧ b ≤ inputs.height * 10) := by
  constructor
  · intro hh w hw
    unfold solveForWaterLevel at hw
    cases hconv : solveForWaterLevelConv inputs t with
    | error e => rw [hconv] at hw; exact absurd hw (by simp [Except.map])
    | ok p =>
        rw [hconv] at hw
        simp only [Except.map] at hw
        cases hw
        exact solveForWaterLevelLoop_mem inputs t 0 inputs.height 100 0 inputs.height
          ((0 + inputs.height) / 2) le_rfl (by linarith) (by linarith) le_rfl p hconv
  · intro hh b hb
    unfold solveForBaseWidth at hb
    cases hconv : solveForBaseWidthConv inputs t with
    | error e => rw [hconv] at hb; exact absurd hb (by simp [Except.map])
    | ok p =>
        rw [hconv] at hb
        simp only [Except.map] at hb
        cases hb
        exact solveForBaseWidthLoop_mem inputs t (1/10) (inputs.height * 10)
          (by norm_num) 100 (1/10) (inputs.height * 10)
          ((1/10 + inputs.height * 10) / 2) le_rfl (by linarith) (by linarith) le_rfl
          p hconv

/-- Witness for the amended C8 on the C1 geometry: the solved water level 4
lies in `[0, 8]` and the solved base width 40.05 lies in `[0.1, 80]`. -/
theorem claim8_witness :
    ((0:ℚ) ≤ 4 ∧ (4:ℚ) ≤ c1Inputs.height) ∧
    (1/10 ≤ (801/20 : ℚ) ∧ (801/20 : ℚ) ≤ c1Inputs.height * 10) := by
  constructor
  · exact (claim8_amended_bracket c1Inputs (29375/327)).1 (by norm_num [c1Inputs]) 4 (by
      rw [solveForWaterLevel, solveForWaterLevelConv, show (100:ℕ) = 99+1 from rfl,
        solveForWaterLevelLoop_succ]
      norm_num [calculateIntermediateResults, intermediateOf, calculateVolume,
        calculateCenterOfGravity, calculateUpliftArea, calculateHydrostaticPressure,
        convertWaterDensity, jsAbs, c1Inputs, Bind.bind, Except.bind, Except.map])
  · exact (claim8_amended_bracket c1Inputs (372287/872)).2 (by norm_num [c1Inputs])
      (801/20) (by
      rw [solveForBaseWidth, solveForBaseWidthConv, show (100:ℕ) = 99+1 from rfl,
        solveForBaseWidthLoop_succ]
      norm_num [calculateIntermediateResults, intermediateOf, calculateVolume,
        calculateCenterOfGravity, calculateUpliftArea, calculateHydrostaticPressure,
        convertWaterDensity, jsAbs, c1Inputs, Bind.bind, Except.bind, Except.map])

/-- The solver round-trip check of the spec: solve for the water level, then
re-run the full statics pipeline with the solved value substituted, and test
the reproduced overturning safety factor against the target within the
0.001 tolerance. -/
def waterLevelRoundTripWithinTol (inputs : DamInputs) (t : ℚ) : Bool :=
  match solveForWaterLevel inputs t with
  | Except.error _ => false
  | Except.ok w =>
      match calculateDamStability
          { inputs with waterLevel := w, solveFor := SolveFor.none } with
      | Except.error _ => false
      | Except.ok res =>
          if jsAbs (res.safetyFactorOverturning - t) < 1/1000 then true else false

/-- A rectangle of unit base and height under an extreme concrete density
(10³⁰), making the overturning safety factor an extremely steep function of
the water level.  The target 27·10³⁰ is hit exactly at waterLevel = 1/3. -/
def c7CexInputs : DamInputs := {
  structureType := StructureType.rectangle
  baseWidth := 1
  height := 1
  waterLevel := 0
  crestWidth := Option.none
  concreteDensity := 10^30
  waterDensity := 3
  waterDensityUnit := WaterDensityUnit.kNPerM3
  frictionCoefficient := Option.none
  heelUplift := Option.none
  toeUplift := Option.none
  unitSystem := UnitSystem.metric
  solveFor := SolveFor.none
  targetSafetyFactor := Option.none
  needsFrictionCalculation := false }

/-- If the water-level bisection loop stops with its convergence flag set,
the returned midpoint satisfies the loop's own tolerance test. -/
lemma solveForWaterLevelLoop_converged (inputs : DamInputs) (t : ℚ) :
    ∀ (fuel : ℕ) (low high mid w : ℚ),
      solveForWaterLevelLoop inputs t low high mid fuel = Except.ok (w, true) →
      ∃ r, calculateIntermediateResults { inputs with waterLevel := w } = Except.ok r ∧
        jsAbs (r.rightingMoment /
          (if r.overturningMoment = 0 then 1 else r.overturningMoment) - t) < 1/1000 := by
  intro fuel
  induction fuel with
  | zero =>
      intro low high mid w hp
      rw [show solveForWaterLevelLoop inputs t low high mid 0 = Except.ok (mid, false)
        from rfl] at hp
      obtain ⟨-, hflag⟩ := Prod.mk.inj (Except.ok.inj hp)
      exact absurd hflag (by simp)
  | succ n ih =>
      intro low high mid w hp
      rw [solveForWaterLevelLoop_succ] at hp
      cases hr : calculateIntermediateResults { inputs with waterLevel := mid } with
      | error e =>
          rw [hr] at hp
          exact absurd hp (by simp [Bind.bind, Except.bind])
      | ok r =>
          rw [hr] at hp
          simp only [Bind.bind, Except.bind] at hp
          by_cases htol : jsAbs (r.rightingMoment /
              (if r.overturningMoment = 0 then 1 else r.overturningMoment) - t) < 1/1000
          · rw [if_pos htol] at hp
            obtain ⟨hmid, -⟩ := Prod.mk.inj (Except.ok.inj hp)
            subst hmid
            exact ⟨r, hr, htol⟩
          · rw [if_neg htol] at hp
            by_cases hgt : r.rightingMoment /
                (if r.overturningMoment = 0 then 1 else r.overturningMoment) > t
            · rw [if_pos hgt, if_pos hgt] at hp
              exact ih mid high ((mid + high) / 2) w hp
            · rw [if_neg hgt, if_neg hgt] at hp
              exact ih low mid ((low + mid) / 2) w hp

/-- **C7 as amended**: whenever the water-level bisection stops by satisfying
its tolerance test (convergence flag `true` — in particular whenever it
returns before exhausting its 100 iterations), re-running the full statics
pipeline with the solved water level substituted reproduces the target
overturning safety factor within 0.001.  (On iteration exhaustion the
returned midpoint was never tested against the tolerance, and the round trip
can miss the target — see the counterexample.) -/
theorem claim7_amended_converged_roundtrip (inputs : DamInputs) (t w : ℚ)
    (res : CalculationResults)
    (hconv : solveForWaterLevelConv inputs t = Except.ok (w, true))
    (hres : calculateDamStability
      { inputs with waterLevel := w, solveFor := SolveFor.none } = Except.ok res) :
    jsAbs (res.safetyFactorOverturning - t) < 1/1000 := by
  obtain ⟨r, hr, htol⟩ := solveForWaterLevelLoop_converged inputs t 100 0 inputs.height
    ((0 + inputs.height) / 2) w hconv
  obtain ⟨mi, sp, ir, hsp, hir, rfl⟩ := (calculateDamStability_ok_iff _ _).1 hres
  have hspr : solvePhase { inputs with waterLevel := w, solveFor := SolveFor.none } =
      Except.ok ({ inputs with waterLevel := w, solveFor := SolveFor.none },
        Option.none) := rfl
  rw [hspr] at hsp
  obtain ⟨h1, h2⟩ := Prod.mk.inj (Except.ok.inj hsp)
  have hIRsame : calculateIntermediateResults mi =
      calculateIntermediateResults { inputs with waterLevel := w } := by
    rw [← h1]
    exact rfl
  rw [hIRsame, hr] at hir
  cases hir
  have hsfo : (assembleResults
      { inputs with waterLevel := w, solveFor := SolveFor.none } r sp).safetyFactorOverturning =
      r.rightingMoment /
        (if r.overturningMoment = 0 then 1 else r.overturningMoment) := by
    simp [assembleResults, calculateOverturningFactor]
  rw [hsfo]
  exact htol

/-- Witness for the amended C7 at the C1 geometry with target 29375/327: the
solver converges at its first midpoint (4) and the re-run pipeline
reproduces the target exactly. -/
theorem claim7_witness :
    jsAbs ((assembleResults { c1Inputs with waterLevel := 4, solveFor := SolveFor.none }
      (intermediateOf { c1Inputs with waterLevel := 4, solveFor := SolveFor.none } 80 5)
      Option.none).safetyFactorOverturning - 29375/327) < 1/1000 :=
  claim7_amended_converged_roundtrip c1Inputs (29375/327) 4 _
    (by
      rw [solveForWaterLevelConv, show (100:ℕ) = 99+1 from rfl, solveForWaterLevelLoop_succ]
      norm_num [calculateIntermediateResults, intermediateOf, calculateVolume,
        calculateCenterOfGravity, calculateUpliftArea, calculateHydrostaticPressure,
        convertWaterDensity, jsAbs, c1Inputs, Bind.bind, Except.bind])
    (by
      norm_num [calculateDamStability, solvePhase, calculateIntermediateResults,
        calculateVolume, calculateCenterOfGravity, truthyOpt, c1Inputs,
        Bind.bind, Except.bind])

/-- `jsAbs` agrees with the mathematical absolute value. -/
lemma jsAbs_eq_abs (x : ℚ) : jsAbs x = |x| := by
  unfold jsAbs
  rcases lt_or_ge x 0 with h | h
  · rw [if_pos h, abs_of_neg h]
  · rw [if_neg (not_lt.2 h), abs_of_nonneg h]

/-- A dyadic rational with denominator 2¹⁰¹ is at least 1/(3·2¹⁰¹) away
from 1/3 (3·z = 2¹⁰¹ has no integer solution). -/
lemma dyadic_third_gap (z : ℤ) :
    1 / (3 * 2^101) ≤ jsAbs ((z : ℚ) / 2^101 - 1/3) := by
  rw [jsAbs_eq_abs]
  have h1 : (z : ℚ) / 2^101 - 1/3 = ((3*z - 2^101 : ℤ) : ℚ) / (3 * 2^101) := by
    push_cast
    ring
  have hk : (3*z - 2^101 : ℤ) ≠ 0 := by
    intro h
    have hpow : (2:ℤ)^101 = 2535301200456458802993406410752 := by norm_num
    rw [hpow] at h
    omega
  rw [h1, abs_div]
  have h2 : (1:ℚ) ≤ |((3*z - 2^101 : ℤ) : ℚ)| := by
    rw [← Int.cast_abs]
    exact_mod_cast Int.one_le_abs hk
  have h3 : |(3 * 2^101 : ℚ)| = 3 * 2^101 := abs_of_pos (by positivity)
  rw [h3]
  gcongr

/-- Steepness of the C7 scenario's safety-factor curve `10³⁰/w³` on
`(0, 1]`: it moves away from the value 27·10³⁰ (attained at w = 1/3) at
rate at least 3·10³⁰. -/
lemma c7_steep (w : ℚ) (hw : 0 < w) (hw1 : w ≤ 1) :
    3 * 10^30 * jsAbs (w - 1/3) ≤ jsAbs (10^30 / w^3 - 27 * 10^30) := by
  rw [jsAbs_eq_abs, jsAbs_eq_abs]
  have hw3 : 0 < w^3 := by positivity
  rcases le_or_lt w (1/3) with hle | hlt
  · have hprod : (0:ℚ) ≤ (1 - 3*w) * (1 + 3*w + 9*w^2 - w^3) := by
      have ha : (0:ℚ) ≤ 1 - 3*w := by linarith
      have hb : (0:ℚ) ≤ 1 + 3*w + 9*w^2 - w^3 := by nlinarith
      exact mul_nonneg ha hb
    have key : 27 * 10^30 + 3 * 10^30 * (1/3 - w) ≤ 10^30 / w^3 := by
      rw [le_div_iff₀ hw3]
      nlinarith [hprod]
    rw [abs_of_nonpos (by linarith), abs_of_nonneg (by linarith)]
    linarith
  · have hprod : (0:ℚ) ≤ (3*w - 1) * (9*w^2 + 3*w + 1 - w^3) := by
      have ha : (0:ℚ) ≤ 3*w - 1 := by linarith
      have hb : (0:ℚ) ≤ 9*w^2 + 3*w + 1 - w^3 := by nlinarith
      exact mul_nonneg ha hb
    have key : 10^30 / w^3 ≤ 27 * 10^30 - 3 * 10^30 * (w - 1/3) := by
      rw [div_le_iff₀ hw3]
      nlinarith [hprod]
    rw [abs_of_nonneg (by linarith), abs_of_nonpos (by linarith)]
    linarith

/-- Every value the water-level bisection loop can return for the C7
scenario is a dyadic rational of the bracket: denominator dividing
`2^(e + fuel)` and value in `(0, 1]`. -/
lemma c7_loop_dyadic (t : ℚ) :
    ∀ (fuel e : ℕ) (low high mid : ℚ),
      (∃ a : ℤ, low = a / 2^e) → (∃ b : ℤ, high = b / 2^e) → (∃ c : ℤ, mid = c / 2^e) →
      0 ≤ low → low < mid → mid < high → high ≤ 1 →
      ∀ p, solveForWaterLevelLoop c7CexInputs t low high mid fuel = Except.ok p →
      (∃ z : ℤ, p.1 = z / 2^(e + fuel)) ∧ 0 < p.1 ∧ p.1 ≤ 1 := by
  intro fuel
  induction fuel with
  | zero =>
      intro e low high mid hdl hdh hdm h0 h1 h2 h3 p hp
      rw [show solveForWaterLevelLoop c7CexInputs t low high mid 0 = Except.ok (mid, false)
        from rfl] at hp
      cases hp
      exact ⟨by simpa using hdm, by simp; linarith, by simp; linarith⟩
  | succ n ih =>
      intro e low high mid hdl hdh hdm h0 h1 h2 h3 p hp
      obtain ⟨a, rfl⟩ := hdl
      obtain ⟨b, rfl⟩ := hdh
      obtain ⟨c, rfl⟩ := hdm
      rw [solveForWaterLevelLoop_succ] at hp
      cases hr : calculateIntermediateResults
          { c7CexInputs with waterLevel := (c:ℚ) / 2^e } with
      | error err =>
          rw [hr] at hp
          exact absurd hp (by simp [Bind.bind, Except.bind])
      | ok r =>
          rw [hr] at hp
          simp only [Bind.bind, Except.bind] at hp
          have hde : ∀ x : ℤ, ((x:ℚ) / 2^e) = (2*x : ℤ) / 2^(e+1) := by
            intro x
            push_cast
            rw [pow_succ]
            ring
          by_cases htol : jsAbs (r.rightingMoment /
              (if r.overturningMoment = 0 then 1 else r.overturningMoment) - t) < 1/1000
          · rw [if_pos htol] at hp
            cases hp
            refine ⟨⟨c * 2^(n+1), ?_⟩, by show (0:ℚ) < (c:ℚ)/2^e; linarith,
              by show ((c:ℚ)/2^e) ≤ 1; linarith⟩
            simp only []
            rw [pow_add]
            push_cast
            field_simp
            ring
          · rw [if_neg htol] at hp
            by_cases hgt : r.rightingMoment /
                (if r.overturningMoment = 0 then 1 else r.overturningMoment) > t
            · rw [if_pos hgt, if_pos hgt] at hp
              have := ih (e+1) ((c:ℚ)/2^e) ((b:ℚ)/2^e)
                (((c:ℚ)/2^e + (b:ℚ)/2^e) / 2)
                ⟨2*c, hde c⟩ ⟨2*b, hde b⟩
                ⟨c + b, by rw [pow_succ]; push_cast; field_simp⟩
                (by linarith) (by linarith) (by linarith) h3 p hp
              rw [show e + 1 + n = e + (n+1) from by omega] at this
              exact this
            · rw [if_neg hgt, if_neg hgt] at hp
              have := ih (e+1) ((a:ℚ)/2^e) ((c:ℚ)/2^e)
                (((a:ℚ)/2^e + (c:ℚ)/2^e) / 2)
                ⟨2*a, hde a⟩ ⟨2*c, hde c⟩
                ⟨a + c, by rw [pow_succ]; push_cast; field_simp⟩
                h0 (by linarith) (by linarith) (by linarith) p hp
              rw [show e + 1 + n = e + (n+1) from by omega] at this
              exact this

/-- Symbolic evaluation of the full pipeline on the C7 scenario at an
arbitrary water level. -/
lemma c7_pipeline (w : ℚ) :
    calculateDamStability { c7CexInputs with waterLevel := w, solveFor := SolveFor.none } =
      Except.ok (assembleResults
        { c7CexInputs with waterLevel := w, solveFor := SolveFor.none }
        (intermediateOf { c7CexInputs with waterLevel := w, solveFor := SolveFor.none }
          1 (1/2)) Option.none) := by
  norm_num [calculateDamStability, solvePhase, calculateIntermediateResults,
    calculateVolume, calculateCenterOfGravity, truthyOpt, c7CexInputs,
    Bind.bind, Except.bind]

/-- The overturning safety factor of the C7 scenario at water level
`w > 0` is `10³⁰ / w³`. -/
lemma c7_sfo (w : ℚ) (hw : 0 < w) :
    (assembleResults { c7CexInputs with waterLevel := w, solveFor := SolveFor.none }
      (intermediateOf { c7CexInputs with waterLevel := w, solveFor := SolveFor.none }
        1 (1/2)) Option.none).safetyFactorOverturning = 10^30 / w^3 := by
  have hOM : (3 * (w * w) / 2 * (w / 3) + 0 : ℚ) ≠ 0 := by
    have : (3 * (w * w) / 2 * (w / 3) + 0 : ℚ) = w^3 / 2 := by ring
    rw [this]
    positivity
  norm_num [assembleResults, intermediateOf, calculateOverturningFactor,
    calculateUpliftArea, calculateHydrostaticPressure, convertWaterDensity,
    c7CexInputs]
  rw [if_neg]
  · field_simp
    ring
  · intro h
    exact hOM (by linarith [h])

/-- Counterexample to **C7**: for the steep scenario the target 27·10³⁰ is
reachable in the bracket (attained exactly at waterLevel = 1/3 ∈ [0, 1]),
yet the solver's round trip misses it by far more than 0.001: the bisection
only ever visits dyadic midpoints with denominator 2¹⁰¹, all of which sit at
least 10³⁰/2¹⁰¹ ≈ 0.39 away from the target in safety-factor terms, so the
tolerance test never succeeds and the exhaustion midpoint is returned. -/
theorem claim7_counterexample :
    ((0:ℚ) ≤ 1/3 ∧ (1/3 : ℚ) ≤ c7CexInputs.height ∧
      (calculateDamStability
        { c7CexInputs with waterLevel := 1/3, solveFor := SolveFor.none }).map
          CalculationResults.safetyFactorOverturning = Except.ok (27 * 10^30)) ∧
    waterLevelRoundTripWithinTol c7CexInputs (27 * 10^30) = false := by
  constructor
  · refine ⟨by norm_num, by norm_num [c7CexInputs], ?_⟩
    rw [c7_pipeline (1/3)]
    simp only [Except.map]
    rw [c7_sfo (1/3) (by norm_num)]
    norm_num
  · unfold waterLevelRoundTripWithinTol
    cases hconv : solveForWaterLevelConv c7CexInputs (27 * 10^30) with
    | error e =>
        rw [show solveForWaterLevel c7CexInputs (27 * 10^30) =
          Except.map Prod.fst (solveForWaterLevelConv c7CexInputs (27 * 10^30)) from rfl,
          hconv]
        simp [Except.map]
    | ok p =>
        have hloop : solveForWaterLevelLoop c7CexInputs (27 * 10^30) 0 c7CexInputs.height
            ((0 + c7CexInputs.height) / 2) 100 = Except.ok p := hconv
        obtain ⟨⟨z, hz⟩, hpos, hle⟩ := c7_loop_dyadic (27 * 10^30) 100 1 0
          c7CexInputs.height ((0 + c7CexInputs.height) / 2)
          ⟨0, by norm_num⟩ ⟨2, by norm_num [c7CexInputs]⟩ ⟨1, by norm_num [c7CexInputs]⟩
          le_rfl (by norm_num [c7CexInputs]) (by norm_num [c7CexInputs])
          (by norm_num [c7CexInputs]) p hloop
        rw [show solveForWaterLevel c7CexInputs (27 * 10^30) =
          Except.map Prod.fst (solveForWaterLevelConv c7CexInputs (27 * 10^30)) from rfl,
          hconv]
        simp only [Except.map]
        rw [c7_pipeline p.1]
        simp only []
        rw [c7_sfo p.1 hpos]
        have hgap := dyadic_third_gap z
        rw [← hz] at hgap
        have hsteep := c7_steep p.1 hpos hle
        have hmul : 3 * 10^30 * (1 / (3 * 2^101)) ≤ 3 * 10^30 * jsAbs (p.1 - 1/3) := by
          gcongr
        have hbig : (1:ℚ)/1000 < 3 * 10^30 * (1 / (3 * 2^101)) := by norm_num
        rw [if_neg (by linarith)]

end DamSafe
